import Mathlib

/-!
Shallow embedding of the `treqs` HTTP tracing middleware
(package `treqs`, file with `Tracer`, and `cmd/treqs`).

The embedding models:
  * `http.Header` as an association list from canonical header name to the
    list of values for that name (Go's `map[string][]string`);
  * the response writer as an explicit record of headers, status and body;
  * the `Tracer` state as the configured `Key` together with the session
    registry `traces`, where `none` models Go's nil map (the zero value a
    composite literal `&Tracer{...}` leaves in the `traces` field) and
    `some l` models an allocated map;
  * the ambient randomness (`randHex`), the trace-capture facility
    (`trace.Start`/`trace.Stop`) and the wrapped handler as an explicit
    environment `TraceEnv`;
  * a Go panic (assignment to an entry in a nil map) as `Except.error`;
  * the lock discipline of each action as an explicit event sequence,
    mirroring the `mu.Lock/Unlock/RLock/RUnlock` calls of the source.
-/

namespace Treqs

/-- Contents of a `bytes.Buffer`, as a list of byte values. -/
abbrev Buffer := List Nat

/-- `http.Header`: map from canonical header name to list of values. -/
abbrev Header := List (String × List String)

/-- The `traces` field of `Tracer`: map from session id to captured buffer. -/
abbrev Registry := List (String × Buffer)

/-- Go map lookup (`m[k]` with comma-ok): first entry with matching key. -/
def getVal {β : Type} : List (String × β) → String → Option β
  | [], _ => none
  | (k, v) :: rest, k2 => if k == k2 then some v else getVal rest k2

/-- Go map assignment `m[k] = v`: replace the entry for `k`, or append it. -/
def setEntry {β : Type} : List (String × β) → String → β → List (String × β)
  | [], k, v => [(k, v)]
  | (k1, v1) :: rest, k, v =>
      if k1 == k then (k, v) :: rest else (k1, v1) :: setEntry rest k v

/-- Go map deletion `delete(m, k)`. -/
def delEntry {β : Type} (m : List (String × β)) (k : String) : List (String × β) :=
  m.filter (fun e => !(e.1 == k))

/-- `http.Header.Get`: first value for the name, or `""` when absent/empty. -/
def hdrGet (h : Header) (k : String) : String :=
  match getVal h k with
  | some (v :: _) => v
  | _ => ""

/-- Header constant `X-Treqs-Action`. -/
def xTReqsAction : String := "X-Treqs-Action"

/-- Header constant `X-Treqs-Id`. -/
def xTReqsID : String := "X-Treqs-Id"

/-- Header constant `X-Treqs-Key`. -/
def xTReqsKey : String := "X-Treqs-Key"

/-- UTF-8 bytes of an ASCII string (all strings written by this code are
ASCII, where each code point is its own UTF-8 byte). -/
def strBytes (s : String) : List Nat :=
  s.data.map Char.toNat

/-- The state of an `http.ResponseWriter`: response headers, the status code
once `WriteHeader` has run (`none` before), and the accumulated body. -/
structure RW where
  headers : List (String × String)
  status : Option Nat
  body : List Nat
deriving DecidableEq

/-- The fresh response writer handed to a handler for a new request. -/
def freshRW : RW := ⟨[], none, []⟩

/-- `w.Header().Set(k, v)`. -/
def RW.setHeader (w : RW) (k v : String) : RW :=
  ⟨setEntry w.headers k v, w.status, w.body⟩

/-- `w.Header().Get(k)` (empty string when unset). -/
def RW.getHeader (w : RW) (k : String) : String :=
  (getVal w.headers k).getD ""

/-- `w.WriteHeader(code)`: only the first call sets the status. -/
def RW.writeHeader (w : RW) (code : Nat) : RW :=
  match w.status with
  | some _ => w
  | none => ⟨w.headers, some code, w.body⟩

/-- `w.Write(bs)`: an implicit `WriteHeader(200)` if none yet, then append. -/
def RW.write (w : RW) (bs : List Nat) : RW :=
  let w2 := w.writeHeader 200
  ⟨w2.headers, w2.status, w2.body ++ bs⟩

/-- `http.NotFound(w, r)`, i.e. `http.Error(w, "404 page not found", 404)`:
plain-text content type, nosniff, status 404, message plus newline as body. -/
def notFound (w : RW) : RW :=
  let w1 := w.setHeader "Content-Type" "text/plain; charset=utf-8"
  let w2 := w1.setHeader "X-Content-Type-Options" "nosniff"
  let w3 := w2.writeHeader 404
  w3.write (strBytes "404 page not found\n")

/-- One digit of the lowercase hex alphabet `0123456789abcdef` used by
`encoding/hex`: nibbles below ten map to a decimal digit, the rest to the
letters `a` through `f`. -/
def hexDigit (n : Nat) : Char :=
  if n % 16 < 10 then Char.ofNat (Char.toNat '0' + n % 16)
  else Char.ofNat (Char.toNat 'a' + (n % 16 - 10))

/-- `hex.EncodeToString`: two lowercase hex digits per byte, high nibble
first. -/
def hexEncode (bs : List Nat) : String :=
  ⟨bs.foldr (fun b acc => hexDigit (b / 16 % 16) :: hexDigit (b % 16) :: acc) []⟩

/-- `randHex()`: hex encoding of 32 bytes drawn from `crypto/rand`.  The
randomness is made explicit: `seed` is the byte slice `rand.Reader` filled. -/
def randHex (seed : List Nat) : String :=
  hexEncode seed

/-- The ambient inputs of one request handled by the `Tracer`: the id
`randHex()` would generate, the result of `trace.Start` (`none` = success),
the bytes the capture facility leaves in the fresh buffer by `trace.Stop`,
and the wrapped downstream `http.Handler`. -/
structure TraceEnv where
  newId : String
  startErr : Option String
  captured : Buffer
  handler : Header → RW → RW

/-- `scrubHeader`'s loop body, iterating over the header's key set while
reading (`hdr.Get`) and deleting (`delete(hdr, k)`) from the live map.  The
accumulator holds the `key, action, id` named results, each filled only when
still empty, exactly as in the source's `switch`. -/
def scrubGo : List String → Header → String × String × String →
    (String × String × String) × Header
  | [], hdr, acc => (acc, hdr)
  | k :: rest, hdr, (key, action, id) =>
      let acc :=
        if k == xTReqsKey then
          (if key == "" then hdrGet hdr k else key, action, id)
        else if k == xTReqsAction then
          (key, if action == "" then hdrGet hdr k else action, id)
        else if k == xTReqsID then
          (key, action, if id == "" then hdrGet hdr k else id)
        else (key, action, id)
      scrubGo rest (delEntry hdr k) acc

/-- `scrubHeader(hdr)`: extract the `(key, action, id)` triple and delete
every header name from the collection.  Iteration visits each key present at
the start of the range loop; only visited keys are deleted, so all original
keys are visited. -/
def scrubHeader (hdr : Header) : (String × String × String) × Header :=
  scrubGo (hdr.map Prod.fst) hdr ("", "", "")

/-- `regLookup`: `t.traces[id]` with comma-ok; reading a nil map yields
"absent". -/
def regLookup (reg : Option Registry) (id : String) : Option Buffer :=
  match reg with
  | none => none
  | some l => getVal l id

/-- `Tracer.read`: look up the session under the shared lock; 404 when
absent, octet-stream body of the stored buffer when present. -/
def Tracer.read (reg : Option Registry) (id : String) (w : RW) :
    Option Registry × RW :=
  match regLookup reg id with
  | none => (reg, notFound w)
  | some buf =>
      let w1 := w.setHeader "Content-Type" "application/octet-stream"
      (reg, w1.write buf)

/-- `Tracer.reset`: `t.traces = make(map[string]*bytes.Buffer)`. -/
def Tracer.reset (_reg : Option Registry) (w : RW) : Option Registry × RW :=
  (some ([] : Registry), w)

/-- `Tracer.trace`: set the id header, attempt `trace.Start`; on failure
respond 500 with a diagnostic and stop; on success run the wrapped handler,
stop the capture, and store the buffer — which panics when `traces` is still
the nil map of a freshly constructed `Tracer` (`Except.error`). -/
def Tracer.trace (env : TraceEnv) (reg : Option Registry) (r : Header)
    (w : RW) : Except String (Option Registry × RW) :=
  let id := env.newId
  let w1 := w.setHeader xTReqsID id
  match env.startErr with
  | some err =>
      let w2 := w1.setHeader "Content-Type" "text/plain; charset=utf-8"
      let w3 := w2.writeHeader 500
      let w4 := w3.write (strBytes ("Could not enable tracing: " ++ err ++ "\n"))
      Except.ok (reg, w4)
  | none =>
      let w2 := env.handler r w1
      match reg with
      | none => Except.error "assignment to entry in nil map"
      | some l => Except.ok (some (setEntry l id env.captured), w2)

/-- `unicode.ToLower` as applied by `strings.ToLower`, restricted to ASCII:
an upper-case ASCII letter is shifted into lower case, anything else is left
unchanged.  (The only letters whose case matters for this program are those
of `trace`, `read`, `reset`, all ASCII.) -/
def charLower (c : Char) : Char :=
  if 'A' ≤ c ∧ c ≤ 'Z' then Char.ofNat (c.toNat + 32) else c

/-- `strings.ToLower`. -/
def strLower (s : String) : String :=
  ⟨s.data.map charLower⟩

/-- The `switch strings.ToLower(action)` dispatch of `Tracer.ServeHTTP`,
after the scrub and the key check have produced `key`, `action`, `id` and the
scrubbed request `r`. -/
def handleAction (env : TraceEnv) (cfgKey : String) (reg : Option Registry)
    (key action id : String) (r : Header) (w : RW) :
    Except String (Option Registry × RW) :=
  let action2 := if key == cfgKey then action else ""
  match strLower action2 with
  | "read" => Except.ok (Tracer.read reg id w)
  | "reset" => Except.ok (Tracer.reset reg w)
  | "trace" => Tracer.trace env reg r w
  | _ => Except.ok (reg, env.handler r w)

/-- `Tracer.ServeHTTP`: scrub the header, force the action to empty unless
the key matches the configured `Key`, then dispatch. -/
def Tracer.serveHTTP (env : TraceEnv) (cfgKey : String)
    (reg : Option Registry) (hdr : Header) (w : RW) :
    Except String (Option Registry × RW) :=
  match scrubHeader hdr with
  | ((key, action, id), r) => handleAction env cfgKey reg key action id r w

/-! ### Lock-event traces

Each handler method performs a fixed sequence of lock operations and
shared-state effects; the sequences below are read off the source line by
line.  `Tracer.trace` calls `t.mu.Lock()` immediately followed by
`t.mu.Unlock()` — there is no `defer` on this pair, unlike `read`, `reset`
and the pass-through branch, which all pair an acquire with a deferred
release around their whole body. -/

/-- One lock operation or shared-state effect performed by a handler. -/
inductive Event where
  | rlock
  | runlock
  | lock
  | unlock
  | startCapture
  | callHandler
  | stopCapture
  | storeSession
  | clearRegistry
  | lookupSession
deriving DecidableEq

/-- Pass-through branch of `ServeHTTP`: `RLock`, handler, deferred
`RUnlock`. -/
def passEvents : List Event := [.rlock, .callHandler, .runlock]

/-- `Tracer.read`: `RLock`, registry lookup (and response), deferred
`RUnlock`. -/
def readEvents : List Event := [.rlock, .lookupSession, .runlock]

/-- `Tracer.reset`: `Lock`, replace the registry, deferred `Unlock`. -/
def resetEvents : List Event := [.lock, .clearRegistry, .unlock]

/-- `Tracer.trace`: `Lock()` then immediately `Unlock()` (no `defer`), then
`trace.Start`; on success the handler runs, `trace.Stop`, and the buffer is
stored; on failure the method returns after responding. -/
def traceEvents (startFails : Bool) : List Event :=
  if startFails then [.lock, .unlock, .startCapture]
  else [.lock, .unlock, .startCapture, .callHandler, .stopCapture,
        .storeSession]

/-- Whether this request holds the exclusive lock after the given events. -/
def exHeldAfter (es : List Event) : Bool :=
  es.foldl
    (fun held e =>
      match e with
      | .lock => true
      | .unlock => false
      | _ => held)
    false

/-- Whether this request holds the shared lock after the given events. -/
def shHeldAfter (es : List Event) : Bool :=
  es.foldl
    (fun held e =>
      match e with
      | .rlock => true
      | .runlock => false
      | _ => held)
    false

/-- Whether the exclusive lock is held while event `i` of `es` executes. -/
def exHeldAt (es : List Event) (i : Nat) : Bool :=
  exHeldAfter (es.take i)

/-- Whether the shared lock is held while event `i` of `es` executes. -/
def shHeldAt (es : List Event) (i : Nat) : Bool :=
  shHeldAfter (es.take i)

/-! ### Reachable registry states

A `Tracer` starts from the zero value of its composite literal: `traces` is
the nil map.  Every later state is produced by `ServeHTTP` handling some
request, where the generated session id is `randHex` of 32 random bytes. -/

/-- Registry states reachable from construction through request handling. -/
inductive Reachable : Option Registry → Prop where
  | init : Reachable none
  | step (env : TraceEnv) (seed : List Nat) (cfgKey : String) (hdr : Header)
      (reg reg2 : Option Registry) (w2 : RW)
      (hseed : seed.length = 32) (hid : env.newId = randHex seed)
      (hre : Reachable reg)
      (hstep : Tracer.serveHTTP env cfgKey reg hdr freshRW = Except.ok (reg2, w2)) :
      Reachable reg2

/-! ### Concrete fixtures

Concrete requests and environments used to evaluate the embedding on the
scenarios of the spec (secret key `"s3cr3t"`, a downstream handler writing
`"hello"`). -/

/-- A concrete 32-byte read from `crypto/rand` (all zero bytes). -/
def seed0 : List Nat := List.replicate 32 0

/-- A downstream handler that writes `"hello"` to the response. -/
def helloHandler : Header → RW → RW := fun _ w => w.write (strBytes "hello")

/-- Environment where `trace.Start` succeeds and the capture records three
bytes. -/
def envHello : TraceEnv := ⟨randHex seed0, none, [1, 2, 3], helloHandler⟩

/-- Environment where `trace.Start` fails (the runtime tracer is already
enabled). -/
def envFail : TraceEnv := ⟨randHex seed0, some "tracing is already enabled", [], helloHandler⟩

/-- A request carrying a key header and an action header. -/
def hdrWith (k a : String) : Header := [(xTReqsKey, [k]), (xTReqsAction, [a])]

/-- A request carrying key, action and id headers. -/
def hdrRead (k a id : String) : Header :=
  [(xTReqsKey, [k]), (xTReqsAction, [a]), (xTReqsID, [id])]

/-- The registry after a reset and one successful trace with `seed0`. -/
def reg0 : Option Registry := some [(randHex seed0, [1, 2, 3])]

/-! ### Helper lemmas -/

/-- `ServeHTTP` is the dispatch applied to the scrubbed triple and request. -/
theorem serveHTTP_eq (env : TraceEnv) (cfgKey : String) (reg : Option Registry)
    (hdr : Header) (w : RW) :
    Tracer.serveHTTP env cfgKey reg hdr w =
      handleAction env cfgKey reg (scrubHeader hdr).1.1 (scrubHeader hdr).1.2.1
        (scrubHeader hdr).1.2.2 (scrubHeader hdr).2 w := rfl

/-- With the correct key, an action lowering to `read` dispatches to
`Tracer.read` on the request's id. -/
theorem handleAction_read (env : TraceEnv) (cfgKey : String)
    (reg : Option Registry) (action id : String) (r : Header) (w : RW)
    (hact : strLower action = "read") :
    handleAction env cfgKey reg cfgKey action id r w =
      Except.ok (Tracer.read reg id w) := by
  unfold handleAction
  simp [hact]

/-- With the correct key, an action lowering to `reset` dispatches to
`Tracer.reset`. -/
theorem handleAction_reset (env : TraceEnv) (cfgKey : String)
    (reg : Option Registry) (action id : String) (r : Header) (w : RW)
    (hact : strLower action = "reset") :
    handleAction env cfgKey reg cfgKey action id r w =
      Except.ok (Tracer.reset reg w) := by
  unfold handleAction
  simp [hact]

/-- With the correct key, an action lowering to `trace` dispatches to
`Tracer.trace`. -/
theorem handleAction_trace (env : TraceEnv) (cfgKey : String)
    (reg : Option Registry) (action id : String) (r : Header) (w : RW)
    (hact : strLower action = "trace") :
    handleAction env cfgKey reg cfgKey action id r w =
      Tracer.trace env reg r w := by
  unfold handleAction
  simp [hact]

/-- A key mismatch forces the action to empty and hence the default
(pass-through) branch, whatever the action was. -/
theorem handleAction_wrongKey (env : TraceEnv) (cfgKey : String)
    (reg : Option Registry) (key action id : String) (r : Header) (w : RW)
    (hkey : key ≠ cfgKey) :
    handleAction env cfgKey reg key action id r w =
      Except.ok (reg, env.handler r w) := by
  unfold handleAction
  simp only [beq_iff_eq, if_neg hkey]
  rfl

/-- With the correct key, any action lowering to none of the three keywords
takes the default (pass-through) branch. -/
theorem handleAction_default (env : TraceEnv) (cfgKey : String)
    (reg : Option Registry) (action id : String) (r : Header) (w : RW)
    (h1 : strLower action ≠ "read") (h2 : strLower action ≠ "reset")
    (h3 : strLower action ≠ "trace") :
    handleAction env cfgKey reg cfgKey action id r w =
      Except.ok (reg, env.handler r w) := by
  unfold handleAction
  rw [show (cfgKey == cfgKey) = true from beq_self_eq_true cfgKey]
  rw [if_pos rfl]
  dsimp only
  split
  · exact absurd (by assumption) h1
  · exact absurd (by assumption) h2
  · exact absurd (by assumption) h3
  · rfl

/-- A Go map lookup at a key other than the one just assigned is unchanged. -/
theorem getVal_setEntry_ne {β : Type} (l : List (String × β)) (k k2 : String)
    (v : β) (h : k ≠ k2) : getVal (setEntry l k v) k2 = getVal l k2 := by
  induction l with
  | nil => simp [setEntry, getVal, h]
  | cons e rest ih =>
      rcases e with ⟨k1, v1⟩
      by_cases hk : k1 = k
      · subst hk
        simp [setEntry, getVal, h]
      · simp [setEntry, getVal, hk, ih]

/-- A session id generated by `randHex` from a 32-byte read is never the
empty string. -/
theorem randHex_ne_empty (seed : List Nat) (h : seed.length = 32) :
    randHex seed ≠ "" := by
  cases seed with
  | nil => simp at h
  | cons b rest =>
      intro hc
      simp [randHex, hexEncode, String.ext_iff] at hc

/-- The only registry transitions `ServeHTTP` performs: leave it alone,
replace it by the empty map (`reset`), or insert the new session under the
generated id (`trace`). -/
theorem serveHTTP_registry (env : TraceEnv) (cfgKey : String)
    (reg reg2 : Option Registry) (hdr : Header) (w w2 : RW)
    (h : Tracer.serveHTTP env cfgKey reg hdr w = Except.ok (reg2, w2)) :
    reg2 = reg ∨ reg2 = some [] ∨
      ∃ l, reg = some l ∧ reg2 = some (setEntry l env.newId env.captured) := by
  rw [serveHTTP_eq] at h
  by_cases hk : (scrubHeader hdr).1.1 = cfgKey
  · rw [hk] at h
    by_cases h1 : strLower (scrubHeader hdr).1.2.1 = "read"
    · rw [handleAction_read env cfgKey reg _ _ _ w h1] at h
      unfold Tracer.read at h
      rcases hl : regLookup reg (scrubHeader hdr).1.2.2 with _ | buf <;>
        rw [hl] at h <;> simp at h <;> exact Or.inl h.1.symm
    · by_cases h2 : strLower (scrubHeader hdr).1.2.1 = "reset"
      · rw [handleAction_reset env cfgKey reg _ _ _ w h2] at h
        unfold Tracer.reset at h
        simp at h
        exact Or.inr (Or.inl h.1.symm)
      · by_cases h3 : strLower (scrubHeader hdr).1.2.1 = "trace"
        · rw [handleAction_trace env cfgKey reg _ _ _ w h3] at h
          unfold Tracer.trace at h
          rcases he : env.startErr with _ | err
          · rw [he] at h
            rcases hr : reg with _ | l
            · rw [hr] at h
              cases h
            · rw [hr] at h
              simp at h
              exact Or.inr (Or.inr ⟨l, rfl, h.1.symm⟩)
          · rw [he] at h
            simp at h
            exact Or.inl h.1.symm
        · rw [handleAction_default env cfgKey reg _ _ _ w h1 h2 h3] at h
          simp at h
          exact Or.inl h.1.symm
  · rw [handleAction_wrongKey env cfgKey reg _ _ _ _ w hk] at h
    simp at h
    exact Or.inl h.1.symm

/-- Invariant: a reachable registry has no session under the empty id. -/
theorem reachable_lookup_empty {reg : Option Registry} (h : Reachable reg) :
    regLookup reg "" = none := by
  induction h with
  | init => rfl
  | step env seed cfgKey hdr reg reg2 w2 hseed hid hre hstep ih =>
      rcases serveHTTP_registry env cfgKey reg reg2 hdr freshRW w2 hstep with
        hsame | hempty | ⟨l, hl, hins⟩
      · rw [hsame]
        exact ih
      · rw [hempty]
        rfl
      · rw [hins]
        have hne : env.newId ≠ "" := by
          rw [hid]
          exact randHex_ne_empty seed hseed
        show getVal (setEntry l env.newId env.captured) "" = none
        rw [getVal_setEntry_ne l env.newId "" env.captured hne]
        rw [hl] at ih
        exact ih

/-- The scrubbed header left behind by `scrubGo` is the original header with
every visited key deleted. -/
theorem scrubGo_snd (ks : List String) (hdr : Header)
    (acc : String × String × String) :
    (scrubGo ks hdr acc).2 = ks.foldl delEntry hdr := by
  induction ks generalizing hdr acc with
  | nil => rfl
  | cons k rest ih =>
      rcases acc with ⟨key, action, id⟩
      simp only [scrubGo, List.foldl]
      exact ih (delEntry hdr k) _

/-- Deleting every key of a list that covers all of a map's keys empties the
map. -/
theorem foldl_delEntry_nil (ks : List String) (hdr : Header)
    (hsub : ∀ e ∈ hdr, e.1 ∈ ks) : ks.foldl delEntry hdr = [] := by
  induction ks generalizing hdr with
  | nil =>
      cases hdr with
      | nil => rfl
      | cons e t => exact absurd (hsub e (by simp)) (by simp)
  | cons k rest ih =>
      simp only [List.foldl]
      apply ih
      intro e he
      have hmem : e ∈ hdr ∧ ¬(e.1 == k) = true := by
        simpa [delEntry] using he
      rcases List.mem_cons.mp (hsub e hmem.1) with h | h
      · exact absurd (by simp [h]) hmem.2
      · exact h

/-- `scrubHeader` deletes every header name, leaving the empty collection. -/
theorem scrubHeader_snd (hdr : Header) : (scrubHeader hdr).2 = [] := by
  unfold scrubHeader
  rw [scrubGo_snd]
  exact foldl_delEntry_nil _ hdr (fun e he => List.mem_map_of_mem Prod.fst he)

/-- The registry `reg0` (one stored session) is reachable from construction:
a `reset` allocates the empty map, then one successful `trace` stores the
session generated from `seed0`. -/
theorem reg0_reachable : Reachable reg0 := by
  have h1 : Reachable (some ([] : Registry)) :=
    Reachable.step envHello seed0 "s3cr3t" (hdrWith "s3cr3t" "reset") none
      (some []) freshRW (by rfl) rfl Reachable.init (by rfl)
  exact Reachable.step envHello seed0 "s3cr3t" (hdrWith "s3cr3t" "trace")
    (some []) reg0 ⟨[(xTReqsID, randHex seed0)], some 200, strBytes "hello"⟩
    (by rfl) rfl h1 (by rfl)

/-! ### Claims -/

/-- Claim C1.  The claim says the exclusive lock is held for the entire
duration of the capture.  The code releases it immediately: in the event
sequence of a successful `trace`, the lock is held only while the `Unlock`
at index 1 runs, and is no longer held when the capture starts (index 2),
while the downstream handler runs (index 3), or when the capture stops
(index 4).  Pass-through requests are therefore not excluded during a
capture. -/
theorem claim_C1 :
    (traceEvents false)[0]? = some Event.lock ∧
    (traceEvents false)[1]? = some Event.unlock ∧
    (traceEvents false)[2]? = some Event.startCapture ∧
    (traceEvents false)[3]? = some Event.callHandler ∧
    (traceEvents false)[4]? = some Event.stopCapture ∧
    exHeldAt (traceEvents false) 1 = true ∧
    exHeldAt (traceEvents false) 2 = false ∧
    exHeldAt (traceEvents false) 3 = false ∧
    exHeldAt (traceEvents false) 4 = false := by
  decide

/-- Claim C2.  The claim says every registry mutation happens under the
exclusive lock and every registry read under at least the shared lock.  The
`reset` clear and the `read` lookup comply, but the `trace` insert
(`t.traces[id] = buf`, index 5 of the success event sequence) runs after the
immediate `Unlock`, with no lock held at all. -/
theorem claim_C2 :
    resetEvents[1]? = some Event.clearRegistry ∧
    exHeldAt resetEvents 1 = true ∧
    readEvents[1]? = some Event.lookupSession ∧
    shHeldAt readEvents 1 = true ∧
    (traceEvents false)[5]? = some Event.storeSession ∧
    exHeldAt (traceEvents false) 5 = false ∧
    shHeldAt (traceEvents false) 5 = false := by
  decide

/-- Claim C3.  The claim says the registry is initialized empty at
construction so a first `trace` stores its session without error.  In the
code, `traces` is the nil map after `&Tracer{...}` (only `reset` allocates
it), so the very first `trace` on a fresh `Tracer` panics at
`t.traces[id] = buf`; after a `reset` has allocated the map the identical
request succeeds and stores the session. -/
theorem claim_C3 :
    Tracer.serveHTTP envHello "s3cr3t" none (hdrWith "s3cr3t" "trace") freshRW =
      Except.error "assignment to entry in nil map" ∧
    Tracer.serveHTTP envHello "s3cr3t" (some []) (hdrWith "s3cr3t" "trace")
        freshRW =
      Except.ok (reg0,
        ⟨[(xTReqsID, randHex seed0)], some 200, strBytes "hello"⟩) :=
  ⟨rfl, rfl⟩

/-- Claim C4, counterexample.  The claim says a capture-start failure's 500
response carries no id header.  Concretely, with `trace.Start` failing, the
response has status 500 and its id header holds the generated id (which is
not empty). -/
theorem claim_C4_counterexample :
    Tracer.serveHTTP envFail "s3cr3t" reg0 (hdrWith "s3cr3t" "trace") freshRW =
      Except.ok (reg0,
        ⟨[(xTReqsID, randHex seed0),
          ("Content-Type", "text/plain; charset=utf-8")],
         some 500,
         strBytes "Could not enable tracing: tracing is already enabled\n"⟩) ∧
    RW.getHeader
      ⟨[(xTReqsID, randHex seed0),
        ("Content-Type", "text/plain; charset=utf-8")],
       some 500,
       strBytes "Could not enable tracing: tracing is already enabled\n"⟩
      xTReqsID ≠ "" :=
  ⟨rfl, by decide⟩

/-- Claim C4 (amended): the id header is set at the start of every `trace`
action, before the capture is started, so when capture fails to start the
500 server-error response also carries the newly generated id header. -/
theorem claim_C4 (env : TraceEnv) (cfgKey : String) (reg : Option Registry)
    (hdr : Header) (e : String)
    (hkey : (scrubHeader hdr).1.1 = cfgKey)
    (hact : strLower (scrubHeader hdr).1.2.1 = "trace")
    (herr : env.startErr = some e) :
    Tracer.serveHTTP env cfgKey reg hdr freshRW =
      Except.ok (reg,
        ⟨[(xTReqsID, env.newId),
          ("Content-Type", "text/plain; charset=utf-8")],
         some 500,
         strBytes ("Could not enable tracing: " ++ e ++ "\n")⟩) ∧
    RW.getHeader
      ⟨[(xTReqsID, env.newId),
        ("Content-Type", "text/plain; charset=utf-8")],
       some 500,
       strBytes ("Could not enable tracing: " ++ e ++ "\n")⟩
      xTReqsID = env.newId := by
  constructor
  · rw [serveHTTP_eq, hkey, handleAction_trace env cfgKey reg _ _ _ freshRW hact]
    unfold Tracer.trace
    rw [herr]
    rfl
  · rfl

/-- Witness for claim C4 at a concrete failing trace request. -/
theorem claim_C4_witness :
    (scrubHeader (hdrWith "s3cr3t" "TRACE")).1.1 = "s3cr3t" ∧
    strLower (scrubHeader (hdrWith "s3cr3t" "TRACE")).1.2.1 = "trace" ∧
    envFail.startErr = some "tracing is already enabled" ∧
    (Tracer.serveHTTP envFail "s3cr3t" reg0 (hdrWith "s3cr3t" "TRACE") freshRW =
      Except.ok (reg0,
        ⟨[(xTReqsID, envFail.newId),
          ("Content-Type", "text/plain; charset=utf-8")],
         some 500,
         strBytes ("Could not enable tracing: " ++
           "tracing is already enabled" ++ "\n")⟩) ∧
     RW.getHeader
       ⟨[(xTReqsID, envFail.newId),
         ("Content-Type", "text/plain; charset=utf-8")],
        some 500,
        strBytes ("Could not enable tracing: " ++
          "tracing is already enabled" ++ "\n")⟩
       xTReqsID = envFail.newId) :=
  ⟨rfl, rfl, rfl,
   claim_C4 envFail "s3cr3t" reg0 (hdrWith "s3cr3t" "TRACE")
     "tracing is already enabled" rfl rfl rfl⟩

/-- Claim C5: a request whose extracted key differs from the configured key
is handled as pass-through whatever the action header said — the scrubbed
request goes straight to the downstream handler, the registry is unchanged
and the middleware adds nothing to the response. -/
theorem claim_C5 (env : TraceEnv) (cfgKey : String) (reg : Option Registry)
    (hdr : Header)
    (hkey : (scrubHeader hdr).1.1 ≠ cfgKey) :
    Tracer.serveHTTP env cfgKey reg hdr freshRW =
      Except.ok (reg, env.handler (scrubHeader hdr).2 freshRW) := by
  rw [serveHTTP_eq]
  exact handleAction_wrongKey env cfgKey reg _ _ _ _ freshRW hkey

/-- Witness for claim C5: wrong key with action `trace` is pass-through. -/
theorem claim_C5_witness :
    (scrubHeader (hdrWith "wrong" "trace")).1.1 ≠ "s3cr3t" ∧
    Tracer.serveHTTP envHello "s3cr3t" reg0 (hdrWith "wrong" "trace") freshRW =
      Except.ok (reg0,
        envHello.handler (scrubHeader (hdrWith "wrong" "trace")).2 freshRW) :=
  ⟨by decide,
   claim_C5 envHello "s3cr3t" reg0 (hdrWith "wrong" "trace") (by decide)⟩

/-- Claim C6: a `read` with the correct key serves a stored session as a 200
`application/octet-stream` response whose body is exactly the stored bytes;
an unknown or empty id yields the 404 not-found response, and in every case
the registry is returned unchanged.  (A reachable registry never stores a
session under the empty id, since generated ids are 64 hex digits.) -/
theorem claim_C6 (env : TraceEnv) (cfgKey : String) (reg : Option Registry)
    (hdr : Header)
    (hkey : (scrubHeader hdr).1.1 = cfgKey)
    (hact : strLower (scrubHeader hdr).1.2.1 = "read")
    (hreach : Reachable reg) :
    (notFound freshRW).status = some 404 ∧
    ((scrubHeader hdr).1.2.2 = "" ∨
        regLookup reg (scrubHeader hdr).1.2.2 = none →
      Tracer.serveHTTP env cfgKey reg hdr freshRW =
        Except.ok (reg, notFound freshRW)) ∧
    (∀ buf, regLookup reg (scrubHeader hdr).1.2.2 = some buf →
      Tracer.serveHTTP env cfgKey reg hdr freshRW =
        Except.ok (reg,
          ⟨[("Content-Type", "application/octet-stream")], some 200, buf⟩)) := by
  refine ⟨rfl, ?_, ?_⟩
  · intro hid
    have hnone : regLookup reg (scrubHeader hdr).1.2.2 = none := by
      rcases hid with hid | hid
      · rw [hid]
        exact reachable_lookup_empty hreach
      · exact hid
    rw [serveHTTP_eq, hkey, handleAction_read env cfgKey reg _ _ _ freshRW hact]
    unfold Tracer.read
    rw [hnone]
  · intro buf hbuf
    rw [serveHTTP_eq, hkey, handleAction_read env cfgKey reg _ _ _ freshRW hact]
    unfold Tracer.read
    rw [hbuf]
    rfl

/-- Witness for claim C6: reading the stored session of `reg0` returns its
exact bytes with the octet-stream content type. -/
theorem claim_C6_witness :
    (scrubHeader (hdrRead "s3cr3t" "READ" (randHex seed0))).1.1 = "s3cr3t" ∧
    strLower (scrubHeader (hdrRead "s3cr3t" "READ" (randHex seed0))).1.2.1 =
      "read" ∧
    Tracer.serveHTTP envHello "s3cr3t" reg0
        (hdrRead "s3cr3t" "READ" (randHex seed0)) freshRW =
      Except.ok (reg0,
        ⟨[("Content-Type", "application/octet-stream")], some 200,
         [1, 2, 3]⟩) :=
  ⟨rfl, rfl,
   (claim_C6 envHello "s3cr3t" reg0 (hdrRead "s3cr3t" "READ" (randHex seed0))
       rfl rfl reg0_reachable).2.2 [1, 2, 3] rfl⟩

/-- Claim C7: when `trace.Start` fails, the response is a 500 with a
plain-text diagnostic, the registry is returned unchanged, and the
downstream handler is never invoked — the result does not depend on
`env.handler`, and the failure event sequence contains no handler call. -/
theorem claim_C7 (env : TraceEnv) (cfgKey : String) (reg : Option Registry)
    (hdr : Header) (e : String)
    (hkey : (scrubHeader hdr).1.1 = cfgKey)
    (hact : strLower (scrubHeader hdr).1.2.1 = "trace")
    (herr : env.startErr = some e) :
    Tracer.serveHTTP env cfgKey reg hdr freshRW =
      Except.ok (reg,
        ⟨[(xTReqsID, env.newId),
          ("Content-Type", "text/plain; charset=utf-8")],
         some 500,
         strBytes ("Could not enable tracing: " ++ e ++ "\n")⟩) ∧
    Event.callHandler ∉ traceEvents true ∧
    Event.storeSession ∉ traceEvents true := by
  refine ⟨?_, by decide, by decide⟩
  rw [serveHTTP_eq, hkey, handleAction_trace env cfgKey reg _ _ _ freshRW hact]
  unfold Tracer.trace
  rw [herr]
  rfl

/-- Witness for claim C7 at a concrete failing trace request. -/
theorem claim_C7_witness :
    (scrubHeader (hdrWith "s3cr3t" "Trace")).1.1 = "s3cr3t" ∧
    strLower (scrubHeader (hdrWith "s3cr3t" "Trace")).1.2.1 = "trace" ∧
    envFail.startErr = some "tracing is already enabled" ∧
    (Tracer.serveHTTP envFail "s3cr3t" reg0 (hdrWith "s3cr3t" "Trace") freshRW =
      Except.ok (reg0,
        ⟨[(xTReqsID, envFail.newId),
          ("Content-Type", "text/plain; charset=utf-8")],
         some 500,
         strBytes ("Could not enable tracing: " ++
           "tracing is already enabled" ++ "\n")⟩) ∧
     Event.callHandler ∉ traceEvents true ∧
     Event.storeSession ∉ traceEvents true) :=
  ⟨rfl, rfl, rfl,
   claim_C7 envFail "s3cr3t" reg0 (hdrWith "s3cr3t" "Trace")
     "tracing is already enabled" rfl rfl rfl⟩

/-- Claim C8: a `reset` with the correct key replaces the registry with the
allocated empty map, and on the empty registry every subsequent `read` —
whatever id it names, in particular any id valid before the reset — returns
the 404 not-found response. -/
theorem claim_C8 (env : TraceEnv) (cfgKey : String) (reg : Option Registry)
    (hdr : Header)
    (hkey : (scrubHeader hdr).1.1 = cfgKey)
    (hact : strLower (scrubHeader hdr).1.2.1 = "reset") :
    Tracer.serveHTTP env cfgKey reg hdr freshRW =
      Except.ok (some ([] : Registry), freshRW) ∧
    (∀ (env2 : TraceEnv) (hdr2 : Header),
      (scrubHeader hdr2).1.1 = cfgKey →
      strLower (scrubHeader hdr2).1.2.1 = "read" →
      Tracer.serveHTTP env2 cfgKey (some []) hdr2 freshRW =
        Except.ok (some ([] : Registry), notFound freshRW)) := by
  constructor
  · rw [serveHTTP_eq, hkey, handleAction_reset env cfgKey reg _ _ _ freshRW hact]
    rfl
  · intro env2 hdr2 hkey2 hact2
    rw [serveHTTP_eq, hkey2,
      handleAction_read env2 cfgKey (some []) _ _ _ freshRW hact2]
    rfl

/-- Witness for claim C8: the id stored in `reg0` is valid before the reset
and reads as 404 after it. -/
theorem claim_C8_witness :
    (scrubHeader (hdrWith "s3cr3t" "reset")).1.1 = "s3cr3t" ∧
    strLower (scrubHeader (hdrWith "s3cr3t" "reset")).1.2.1 = "reset" ∧
    regLookup reg0 (randHex seed0) = some [1, 2, 3] ∧
    Tracer.serveHTTP envHello "s3cr3t" reg0 (hdrWith "s3cr3t" "reset")
        freshRW =
      Except.ok (some ([] : Registry), freshRW) ∧
    Tracer.serveHTTP envHello "s3cr3t" (some [])
        (hdrRead "s3cr3t" "read" (randHex seed0)) freshRW =
      Except.ok (some ([] : Registry), notFound freshRW) :=
  ⟨rfl, rfl, rfl,
   (claim_C8 envHello "s3cr3t" reg0 (hdrWith "s3cr3t" "reset") rfl rfl).1,
   (claim_C8 envHello "s3cr3t" reg0 (hdrWith "s3cr3t" "reset") rfl rfl).2
     envHello (hdrRead "s3cr3t" "read" (randHex seed0)) rfl rfl⟩

/-- Claim C9: with the correct key the dispatch depends only on the
lower-cased action; an action lowering to none of `read`, `reset`, `trace`
(including the empty string and near-misses like `tracee`) is pass-through,
and the three keywords dispatch to their operations. -/
theorem claim_C9 (env : TraceEnv) (cfgKey : String) (reg : Option Registry)
    (id : String) (r : Header) :
    (∀ a1 a2, strLower a1 = strLower a2 →
      handleAction env cfgKey reg cfgKey a1 id r freshRW =
        handleAction env cfgKey reg cfgKey a2 id r freshRW) ∧
    (∀ a, strLower a ≠ "read" → strLower a ≠ "reset" → strLower a ≠ "trace" →
      handleAction env cfgKey reg cfgKey a id r freshRW =
        Except.ok (reg, env.handler r freshRW)) ∧
    (∀ a, strLower a = "read" →
      handleAction env cfgKey reg cfgKey a id r freshRW =
        Except.ok (Tracer.read reg id freshRW)) ∧
    (∀ a, strLower a = "reset" →
      handleAction env cfgKey reg cfgKey a id r freshRW =
        Except.ok (Tracer.reset reg freshRW)) ∧
    (∀ a, strLower a = "trace" →
      handleAction env cfgKey reg cfgKey a id r freshRW =
        Tracer.trace env reg r freshRW) := by
  refine ⟨?_, ?_, ?_, ?_, ?_⟩
  · intro a1 a2 hla
    by_cases h1 : strLower a1 = "read"
    · rw [handleAction_read env cfgKey reg a1 id r freshRW h1,
        handleAction_read env cfgKey reg a2 id r freshRW (hla.symm.trans h1)]
    · by_cases h2 : strLower a1 = "reset"
      · rw [handleAction_reset env cfgKey reg a1 id r freshRW h2,
          handleAction_reset env cfgKey reg a2 id r freshRW (hla.symm.trans h2)]
      · by_cases h3 : strLower a1 = "trace"
        · rw [handleAction_trace env cfgKey reg a1 id r freshRW h3,
            handleAction_trace env cfgKey reg a2 id r freshRW
              (hla.symm.trans h3)]
        · rw [handleAction_default env cfgKey reg a1 id r freshRW h1 h2 h3,
            handleAction_default env cfgKey reg a2 id r freshRW
              (fun hc => h1 (hla.trans hc)) (fun hc => h2 (hla.trans hc))
              (fun hc => h3 (hla.trans hc))]
  · intro a h1 h2 h3
    exact handleAction_default env cfgKey reg a id r freshRW h1 h2 h3
  · intro a ha
    exact handleAction_read env cfgKey reg a id r freshRW ha
  · intro a ha
    exact handleAction_reset env cfgKey reg a id r freshRW ha
  · intro a ha
    exact handleAction_trace env cfgKey reg a id r freshRW ha

/-- Witness for claim C9: `tracee` and the empty action are pass-through;
`TRACE` behaves exactly as `trace`. -/
theorem claim_C9_witness :
    handleAction envHello "s3cr3t" reg0 "s3cr3t" "tracee" "" [] freshRW =
      Except.ok (reg0, envHello.handler [] freshRW) ∧
    handleAction envHello "s3cr3t" reg0 "s3cr3t" "TRACE" "" [] freshRW =
      handleAction envHello "s3cr3t" reg0 "s3cr3t" "trace" "" [] freshRW ∧
    handleAction envHello "s3cr3t" reg0 "s3cr3t" "" "" [] freshRW =
      Except.ok (reg0, envHello.handler [] freshRW) :=
  ⟨(claim_C9 envHello "s3cr3t" reg0 "" []).2.1 "tracee"
     (by decide) (by decide) (by decide),
   (claim_C9 envHello "s3cr3t" reg0 "" []).1 "TRACE" "trace" (by decide),
   (claim_C9 envHello "s3cr3t" reg0 "" []).2.1 ""
     (by decide) (by decide) (by decide)⟩

/-- Claim C10: the scrub deletes every header name — not only the three
control headers — so the dispatch, and with it the downstream handler,
always receives the empty header collection. -/
theorem claim_C10 (hdr : Header) :
    (scrubHeader hdr).2 = [] ∧
    ∀ (env : TraceEnv) (cfgKey : String) (reg : Option Registry) (w : RW),
      Tracer.serveHTTP env cfgKey reg hdr w =
        handleAction env cfgKey reg (scrubHeader hdr).1.1
          (scrubHeader hdr).1.2.1 (scrubHeader hdr).1.2.2 ([] : Header) w := by
  refine ⟨scrubHeader_snd hdr, ?_⟩
  intro env cfgKey reg w
  rw [serveHTTP_eq, scrubHeader_snd]

end Treqs
